import Mathlib

/-!
Shallow embedding of `src/project/rag/retriever.py` (News-RAG-Retriever).

The retrieval decision engine is the function `retrieve` of that module.
Python floats are modelled as rationals (ℚ); the Embedder and the Chroma
collection are modelled as a `Collab` record of oracle functions, so that
`retrieve` becomes a pure function of the query, the parameters and the
collaborator responses.  Python's stable `list.sort(key=score, reverse=True)`
is modelled by the stable insertion sort `sortDesc`.
-/

namespace NewsRAG

/-- Module constant `DEFAULT_SIMILARITY_THRESHOLD = 0.25` (retriever.py line 35). -/
def DEFAULT_SIMILARITY_THRESHOLD : ℚ := 1/4

/-- Module constant `DEFAULT_TOP_K = 4` (retriever.py line 36). -/
def DEFAULT_TOP_K : Nat := 4

/-- Module constant `MIN_ACCEPTABLE_SCORE = -0.55` (retriever.py line 40). -/
def MIN_ACCEPTABLE_SCORE : ℚ := -(11/20)

/-- The dataclass `RetrievedChunk` (retriever.py lines 43-53). -/
structure RetrievedChunk where
  text : String
  category : String
  date : String
  link : String
  score : ℚ
deriving DecidableEq, Repr

/-- The metadata mapping of one index record, restricted to the three keys
the engine reads (`category`, `date`, `link`); a missing key is `none` and
defaults to the empty string, mirroring `meta.get(key, "")`. -/
structure Metadata where
  category : Option String
  date : Option String
  link : Option String
deriving DecidableEq, Repr

/-- One record of the Vector Index response: a stored document, its metadata
and a distance value (spec section 6, `VectorIndex.query`). -/
structure IndexRecord where
  document : String
  metadata : Metadata
  distance : ℚ
deriving DecidableEq, Repr

/-- The two collaborators of the engine, as response oracles: `embed` models
`embed_query` (retriever.py lines 74-79) and `query` models
`collection.query` (lines 119-123), already unbatched and zipped into records. -/
structure Collab where
  embed : String → List ℚ
  query : List ℚ → Nat → List IndexRecord

/-- Python `str.split()` on a character list: split on whitespace runs and
drop empty pieces.  `acc` holds the current word reversed. -/
def pySplitAux : List Char → List Char → List String
  | [], [] => []
  | [], acc => [String.mk acc.reverse]
  | c :: cs, acc =>
    if c.isWhitespace then
      match acc with
      | [] => pySplitAux cs []
      | _ => String.mk acc.reverse :: pySplitAux cs []
    else
      pySplitAux cs (c :: acc)

/-- `query.split()` of retriever.py line 101. -/
def pySplit (q : String) : List String := pySplitAux q.data []

/-- `not query.strip()` of retriever.py line 96: true iff every character of
the query is whitespace. -/
def strippedEmpty (q : String) : Bool := q.data.all (·.isWhitespace)

/-- `is_single_word = len(words) == 1` (retriever.py line 102). -/
def isSingleWord (q : String) : Bool := (pySplit q).length == 1

/-- `effective_top_k = 6 if is_single_word else 3` (retriever.py line 107). -/
def effectiveTopK (q : String) : Nat := if isSingleWord q then 6 else 3

/-- `effective_threshold = similarity_threshold * 0.8 if is_single_word else
similarity_threshold` (retriever.py line 108). -/
def effectiveThreshold (q : String) (similarity_threshold : ℚ) : ℚ :=
  if isSingleWord q then similarity_threshold * (8/10) else similarity_threshold

/-- The chunk built from one index record in the loop of retriever.py
lines 135-144: `similarity = 1.0 - dist`, metadata keys defaulting to `""`. -/
def toChunk (r : IndexRecord) : RetrievedChunk :=
  { text := r.document
    category := r.metadata.category.getD ""
    date := r.metadata.date.getD ""
    link := r.metadata.link.getD ""
    score := 1 - r.distance }

/-- Stable descending insertion of a chunk into a list: `x` goes before the
first element whose score is at most `x.score`, hence after every earlier
element with a strictly greater score and before later equal-score elements. -/
def insertDesc (x : RetrievedChunk) : List RetrievedChunk → List RetrievedChunk
  | [] => [x]
  | y :: ys => if y.score ≤ x.score then x :: y :: ys else y :: insertDesc x ys

/-- Python's stable `lst.sort(key=lambda c: c.score, reverse=True)`
(retriever.py lines 156, 164, 169), modelled as stable insertion sort. -/
def sortDesc : List RetrievedChunk → List RetrievedChunk
  | [] => []
  | x :: xs => insertDesc x (sortDesc xs)

/-- `all_candidates` (retriever.py lines 110-144): the query is embedded, the
index is asked for `n_results = max(effective_top_k * 2, effective_top_k)`
records, and each record is scored into a chunk. -/
def allCandidates (collab : Collab) (q : String) : List RetrievedChunk :=
  let query_vec := collab.embed q
  let n_results := max (effectiveTopK q * 2) (effectiveTopK q)
  (collab.query query_vec n_results).map toChunk

/-- `passed_threshold` (retriever.py lines 133, 146-147): the candidates with
`similarity >= effective_threshold`, in candidate order. -/
def passedThreshold (collab : Collab) (q : String) (similarity_threshold : ℚ) :
    List RetrievedChunk :=
  (allCandidates collab q).filter
    (fun c => effectiveThreshold q similarity_threshold ≤ c.score)

/-- The fallback selection (retriever.py lines 167-180): sort the full
candidate list descending, filter to the global floor, then return the first
`effective_top_k` (single-word) or the first 3 (multi-word), or `[]` if the
floor filter left nothing. -/
def fallbackSelect (is_single_word : Bool) (effective_top_k : Nat)
    (all_candidates : List RetrievedChunk) : List RetrievedChunk :=
  let sorted_all := sortDesc all_candidates
  let strong_from_all := sorted_all.filter (fun c => MIN_ACCEPTABLE_SCORE ≤ c.score)
  if strong_from_all = [] then []
  else if is_single_word then strong_from_all.take effective_top_k
  else strong_from_all.take 3

/-- The selection logic of retriever.py lines 149-180, as a pure function of
the mode, the effective parameters and the scored candidate list. -/
def retrieveBody (is_single_word : Bool) (effective_top_k : Nat)
    (effective_threshold : ℚ) (all_candidates : List RetrievedChunk) :
    List RetrievedChunk :=
  let passed_threshold :=
    all_candidates.filter (fun c => effective_threshold ≤ c.score)
  if passed_threshold = [] then
    fallbackSelect is_single_word effective_top_k all_candidates
  else if is_single_word then
    let strong_enough :=
      passed_threshold.filter (fun c => MIN_ACCEPTABLE_SCORE ≤ c.score)
    if strong_enough = [] then
      fallbackSelect is_single_word effective_top_k all_candidates
    else (sortDesc strong_enough).take effective_top_k
  else
    let strong_enough :=
      passed_threshold.filter (fun c => MIN_ACCEPTABLE_SCORE ≤ c.score)
    if strong_enough = [] then []
    else (sortDesc strong_enough).take effective_top_k

/-- `retrieve` (retriever.py lines 82-180), instrumented: the second component
counts collaborator invocations (one embedding call plus one index call on the
non-empty path, none on the empty-query short circuit).  `top_k` is the
caller-supplied argument; the body, like the source, never reads it. -/
def retrieveT (collab : Collab) (query : String) (top_k : Nat)
    (similarity_threshold : ℚ) : List RetrievedChunk × Nat :=
  if strippedEmpty query then ([], 0)
  else
    (retrieveBody (isSingleWord query) (effectiveTopK query)
      (effectiveThreshold query similarity_threshold)
      (allCandidates collab query), 2)

/-- The result list of `retrieve`. -/
def retrieve (collab : Collab) (query : String) (top_k : Nat)
    (similarity_threshold : ℚ) : List RetrievedChunk :=
  (retrieveT collab query top_k similarity_threshold).1

/-! ### Lemmas about the stable descending sort -/

theorem mem_insertDesc {a x : RetrievedChunk} {l : List RetrievedChunk} :
    a ∈ insertDesc x l ↔ a = x ∨ a ∈ l := by
  induction l with
  | nil => simp [insertDesc]
  | cons y ys ih =>
    by_cases h : y.score ≤ x.score
    · simp [insertDesc, h]
    · simp only [insertDesc, if_neg h, List.mem_cons, ih]
      tauto

theorem pairwise_insertDesc {x : RetrievedChunk} {l : List RetrievedChunk}
    (h : List.Pairwise (fun a b => b.score ≤ a.score) l) :
    List.Pairwise (fun a b => b.score ≤ a.score) (insertDesc x l) := by
  induction l with
  | nil => simp [insertDesc]
  | cons y ys ih =>
    rcases List.pairwise_cons.mp h with ⟨hy, hys⟩
    by_cases hxy : y.score ≤ x.score
    · rw [insertDesc, if_pos hxy]
      refine List.pairwise_cons.mpr ⟨?_, h⟩
      intro z hz
      rcases List.mem_cons.mp hz with rfl | hz
      · exact hxy
      · exact (hy z hz).trans hxy
    · rw [insertDesc, if_neg hxy]
      refine List.pairwise_cons.mpr ⟨?_, ih hys⟩
      intro z hz
      rcases mem_insertDesc.mp hz with rfl | hz
      · exact (lt_of_not_le hxy).le
      · exact hy z hz

theorem pairwise_sortDesc (l : List RetrievedChunk) :
    List.Pairwise (fun a b => b.score ≤ a.score) (sortDesc l) := by
  induction l with
  | nil => simp [sortDesc]
  | cons x xs ih => exact pairwise_insertDesc ih

theorem mem_sortDesc {a : RetrievedChunk} {l : List RetrievedChunk} :
    a ∈ sortDesc l ↔ a ∈ l := by
  induction l with
  | nil => simp [sortDesc]
  | cons x xs ih => simp [sortDesc, mem_insertDesc, ih]

/-- Stability of one insertion, seen through the elements of one score class:
inserting `x` never reorders elements of equal score, because `x` only ever
passes elements with a strictly greater score. -/
theorem filter_insertDesc_score (s : ℚ) (x : RetrievedChunk)
    (l : List RetrievedChunk) :
    (insertDesc x l).filter (fun c => c.score = s) =
      ((x :: l).filter (fun c => c.score = s)) := by
  induction l with
  | nil => simp [insertDesc]
  | cons y ys ih =>
    by_cases hxy : y.score ≤ x.score
    · rw [insertDesc, if_pos hxy]
    · rw [insertDesc, if_neg hxy]
      have hlt : x.score < y.score := lt_of_not_le hxy
      by_cases hy : y.score = s
      · have hx : ¬ x.score = s := by
          intro hxs
          exact absurd (hxs ▸ hy ▸ hlt) (lt_irrefl _)
        simp only [List.filter_cons, decide_eq_true_eq, if_pos hy, if_neg hx, ih]
      · by_cases hx : x.score = s
        · simp only [List.filter_cons, decide_eq_true_eq, if_neg hy, if_pos hx, ih,
            List.filter_cons]
        · simp only [List.filter_cons, decide_eq_true_eq, if_neg hy, if_neg hx, ih,
            List.filter_cons]

/-- Stability of `sortDesc`: within one score class the sort is the identity. -/
theorem sortDesc_filter_score (s : ℚ) (l : List RetrievedChunk) :
    (sortDesc l).filter (fun c => c.score = s) = l.filter (fun c => c.score = s) := by
  induction l with
  | nil => rfl
  | cons x xs ih =>
    rw [sortDesc, filter_insertDesc_score]
    simp only [List.filter_cons, ih]

/-! ### Lemmas about tokenization -/

theorem pySplitAux_all_ws {cs : List Char} (h : ∀ c ∈ cs, c.isWhitespace) :
    pySplitAux cs [] = [] := by
  induction cs with
  | nil => rfl
  | cons c cs ih =>
    have hc : c.isWhitespace = true := h c (List.mem_cons_self c cs)
    simp only [pySplitAux, hc, if_pos]
    exact ih fun d hd => h d (List.mem_cons_of_mem c hd)

theorem pySplit_eq_nil_of_strippedEmpty {q : String}
    (h : strippedEmpty q = true) : pySplit q = [] := by
  rw [strippedEmpty, List.all_eq_true] at h
  exact pySplitAux_all_ws h

theorem strippedEmpty_eq_false {q : String} (h : pySplit q ≠ []) :
    strippedEmpty q = false := by
  cases hse : strippedEmpty q with
  | false => rfl
  | true => exact absurd (pySplit_eq_nil_of_strippedEmpty hse) h

theorem isSingleWord_iff {q : String} :
    isSingleWord q = true ↔ (pySplit q).length = 1 := by
  simp [isSingleWord]

/-! ### Branch lemmas for the selection logic -/

theorem filter_swap (p q : RetrievedChunk → Bool) (l : List RetrievedChunk) :
    List.filter p (List.filter q l) = List.filter q (List.filter p l) := by
  simp only [List.filter_filter]
  exact List.filter_congr fun a _ => by rw [Bool.and_comm]

theorem mem_fallbackSelect_floor {c : RetrievedChunk} {single : Bool} {k : Nat}
    {all : List RetrievedChunk} (h : c ∈ fallbackSelect single k all) :
    MIN_ACCEPTABLE_SCORE ≤ c.score := by
  simp only [fallbackSelect] at h
  split_ifs at h
  · exact absurd h (List.not_mem_nil c)
  · have hm := (List.take_sublist _ _).subset h
    simp only [List.mem_filter, decide_eq_true_eq] at hm
    exact hm.2
  · have hm := (List.take_sublist _ _).subset h
    simp only [List.mem_filter, decide_eq_true_eq] at hm
    exact hm.2

theorem pairwise_fallbackSelect (single : Bool) (k : Nat)
    (all : List RetrievedChunk) :
    List.Pairwise (fun a b => b.score ≤ a.score) (fallbackSelect single k all) := by
  simp only [fallbackSelect]
  split_ifs
  · exact List.Pairwise.nil
  · exact ((pairwise_sortDesc all).filter _).sublist (List.take_sublist _ _)
  · exact ((pairwise_sortDesc all).filter _).sublist (List.take_sublist _ _)

theorem length_fallbackSelect (single : Bool) (k : Nat)
    (all : List RetrievedChunk) (hk : 3 ≤ k) :
    (fallbackSelect single k all).length ≤ k := by
  simp only [fallbackSelect]
  split_ifs
  · simp
  · simp only [List.length_take]
    exact min_le_left _ _
  · simp only [List.length_take]
    exact le_trans (min_le_left _ _) hk

theorem fallbackSelect_filter_score_sublist (single : Bool) (k : Nat)
    (all : List RetrievedChunk) (s : ℚ) :
    List.Sublist ((fallbackSelect single k all).filter (fun c => c.score = s))
      (all.filter (fun c => c.score = s)) := by
  simp only [fallbackSelect]
  have key : List.Sublist (((sortDesc all).filter
        (fun c => MIN_ACCEPTABLE_SCORE ≤ c.score)).filter (fun c => c.score = s))
      (all.filter (fun c => c.score = s)) := by
    rw [filter_swap, sortDesc_filter_score]
    exact List.filter_sublist _
  split_ifs
  · exact List.nil_sublist _
  · exact (((List.take_sublist _ _).filter _).trans key)
  · exact (((List.take_sublist _ _).filter _).trans key)

theorem mem_retrieveBody_floor {c : RetrievedChunk} {single : Bool} {k : Nat}
    {thr : ℚ} {all : List RetrievedChunk}
    (h : c ∈ retrieveBody single k thr all) :
    MIN_ACCEPTABLE_SCORE ≤ c.score := by
  simp only [retrieveBody] at h
  split_ifs at h
  · exact mem_fallbackSelect_floor h
  · exact mem_fallbackSelect_floor h
  · have hm := mem_sortDesc.mp ((List.take_sublist _ _).subset h)
    simp only [List.mem_filter, decide_eq_true_eq] at hm
    exact hm.2
  · exact absurd h (List.not_mem_nil c)
  · have hm := mem_sortDesc.mp ((List.take_sublist _ _).subset h)
    simp only [List.mem_filter, decide_eq_true_eq] at hm
    exact hm.2

theorem pairwise_retrieveBody (single : Bool) (k : Nat) (thr : ℚ)
    (all : List RetrievedChunk) :
    List.Pairwise (fun a b => b.score ≤ a.score) (retrieveBody single k thr all) := by
  simp only [retrieveBody]
  split_ifs
  · exact pairwise_fallbackSelect _ _ _
  · exact pairwise_fallbackSelect _ _ _
  · exact (pairwise_sortDesc _).sublist (List.take_sublist _ _)
  · exact List.Pairwise.nil
  · exact (pairwise_sortDesc _).sublist (List.take_sublist _ _)

theorem length_retrieveBody (single : Bool) (k : Nat) (thr : ℚ)
    (all : List RetrievedChunk) (hk : 3 ≤ k) :
    (retrieveBody single k thr all).length ≤ k := by
  simp only [retrieveBody]
  split_ifs
  · exact length_fallbackSelect _ _ _ hk
  · exact length_fallbackSelect _ _ _ hk
  · simp only [List.length_take]
    exact min_le_left _ _
  · simp
  · simp only [List.length_take]
    exact min_le_left _ _

theorem retrieveBody_filter_score_sublist (single : Bool) (k : Nat) (thr : ℚ)
    (all : List RetrievedChunk) (s : ℚ) :
    List.Sublist ((retrieveBody single k thr all).filter (fun c => c.score = s))
      (all.filter (fun c => c.score = s)) := by
  simp only [retrieveBody]
  have key : List.Sublist ((sortDesc ((all.filter (fun c => thr ≤ c.score)).filter
        (fun c => MIN_ACCEPTABLE_SCORE ≤ c.score))).filter (fun c => c.score = s))
      (all.filter (fun c => c.score = s)) := by
    rw [sortDesc_filter_score, filter_swap]
    refine ((List.filter_sublist _).trans ?_)
    rw [filter_swap]
    exact List.filter_sublist _
  split_ifs
  · exact fallbackSelect_filter_score_sublist _ _ _ _
  · exact fallbackSelect_filter_score_sublist _ _ _ _
  · exact ((List.take_sublist _ _).filter _).trans key
  · exact List.nil_sublist _
  · exact ((List.take_sublist _ _).filter _).trans key

/-! ### Unfolding helpers for the entry point -/

theorem retrieve_eq_body {collab : Collab} {q : String} {k : Nat} {t : ℚ}
    (h : strippedEmpty q = false) :
    retrieve collab q k t =
      retrieveBody (isSingleWord q) (effectiveTopK q) (effectiveThreshold q t)
        (allCandidates collab q) := by
  simp [retrieve, retrieveT, h]

theorem retrieve_eq_nil_of_ws {collab : Collab} {q : String} {k : Nat} {t : ℚ}
    (h : strippedEmpty q = true) : retrieve collab q k t = [] := by
  simp [retrieve, retrieveT, h]

theorem three_le_effectiveTopK (q : String) : 3 ≤ effectiveTopK q := by
  rw [effectiveTopK]
  split_ifs <;> norm_num

theorem isSingleWord_false_of_two_le {q : String}
    (h : 2 ≤ (pySplit q).length) : isSingleWord q = false := by
  simp only [isSingleWord, beq_eq_false_iff_ne, ne_eq]
  omega

/-! ### Claim theorems -/

/-- Claim C1: for every query and configuration, the sequence returned by
`retrieve` has similarity scores non-increasing by position, and every
returned result has similarity score at least −0.55, regardless of the
caller-supplied `similarity_threshold` or `top_k`. -/
theorem claim1_scores_sorted_and_floored (collab : Collab) (q : String)
    (k : Nat) (t : ℚ) :
    List.Pairwise (fun a b => b.score ≤ a.score) (retrieve collab q k t) ∧
      ∀ c ∈ retrieve collab q k t, MIN_ACCEPTABLE_SCORE ≤ c.score := by
  cases hse : strippedEmpty q with
  | true =>
    rw [retrieve_eq_nil_of_ws hse]
    exact ⟨List.Pairwise.nil, by simp⟩
  | false =>
    rw [retrieve_eq_body hse]
    exact ⟨pairwise_retrieveBody _ _ _ _, fun c hc => mem_retrieveBody_floor hc⟩

/-- Claim C2: if splitting the query on whitespace yields exactly one token
then `retrieve` uses effective top-K 6 and effective threshold 0.8 times the
supplied threshold; with two or more tokens it uses effective top-K 3 and the
supplied threshold unchanged. -/
theorem claim2_effective_parameters (q : String) (t : ℚ) :
    ((pySplit q).length = 1 →
      effectiveTopK q = 6 ∧ effectiveThreshold q t = t * (8/10)) ∧
    (2 ≤ (pySplit q).length →
      effectiveTopK q = 3 ∧ effectiveThreshold q t = t) := by
  constructor
  · intro h
    have hs : isSingleWord q = true := isSingleWord_iff.mpr h
    rw [effectiveTopK, effectiveThreshold, if_pos hs, if_pos hs]
    exact ⟨rfl, rfl⟩
  · intro h
    have hs : isSingleWord q = false := isSingleWord_false_of_two_le h
    rw [effectiveTopK, effectiveThreshold, hs]
    exact ⟨rfl, rfl⟩

/-- Claim C3: when no candidate passes the effective threshold, `retrieve`
sorts all candidates descending, filters to the −0.55 floor, and returns `[]`
if nothing survives, else the first 3 survivors for a multi-token query and
the first `effectiveTopK` survivors for a single-token query. -/
theorem claim3_fallback_on_empty_pass (collab : Collab) (q : String)
    (k : Nat) (t : ℚ)
    (hq : strippedEmpty q = false)
    (hp : passedThreshold collab q t = []) :
    retrieve collab q k t =
      (if ((sortDesc (allCandidates collab q)).filter
            (fun c => MIN_ACCEPTABLE_SCORE ≤ c.score)) = [] then []
       else if isSingleWord q then
         ((sortDesc (allCandidates collab q)).filter
            (fun c => MIN_ACCEPTABLE_SCORE ≤ c.score)).take (effectiveTopK q)
       else ((sortDesc (allCandidates collab q)).filter
            (fun c => MIN_ACCEPTABLE_SCORE ≤ c.score)).take 3) := by
  rw [retrieve_eq_body hq]
  have hp' : (allCandidates collab q).filter
      (fun c => effectiveThreshold q t ≤ c.score) = [] := hp
  simp only [retrieveBody]
  rw [if_pos hp']
  simp only [fallbackSelect]

/-- Claim C4: for a multi-token query where at least one candidate passes the
effective threshold but no passing candidate reaches −0.55, `retrieve` returns
the empty sequence (the fallback path is not taken). -/
theorem claim4_precise_floor_empty (collab : Collab) (q : String)
    (k : Nat) (t : ℚ)
    (hw : 2 ≤ (pySplit q).length)
    (hp : passedThreshold collab q t ≠ [])
    (hf : ∀ c ∈ passedThreshold collab q t, c.score < MIN_ACCEPTABLE_SCORE) :
    retrieve collab q k t = [] := by
  have hq : strippedEmpty q = false := by
    refine strippedEmpty_eq_false fun hnil => ?_
    rw [hnil] at hw
    simp at hw
  have hsw : isSingleWord q = false := isSingleWord_false_of_two_le hw
  have hp' : (allCandidates collab q).filter
      (fun c => effectiveThreshold q t ≤ c.score) ≠ [] := hp
  have hstrong : ((allCandidates collab q).filter
      (fun c => effectiveThreshold q t ≤ c.score)).filter
        (fun c => MIN_ACCEPTABLE_SCORE ≤ c.score) = [] := by
    rw [List.filter_eq_nil_iff]
    intro a ha
    simp only [decide_eq_true_eq, not_le]
    exact hf a ha
  rw [retrieve_eq_body hq]
  simp only [retrieveBody]
  rw [if_neg hp']
  simp only [hsw, Bool.false_eq_true, if_false]
  rw [if_pos hstrong]

/-- Claim C6: for every query that is empty or consists only of whitespace,
`retrieve` returns an empty sequence without invoking the Embedder or the
Vector Index (the second component of `retrieveT` counts collaborator calls). -/
theorem claim6_empty_query_short_circuit (collab : Collab) (q : String)
    (k : Nat) (t : ℚ) (h : strippedEmpty q = true) :
    retrieveT collab q k t = ([], 0) := by
  simp [retrieveT, h]

/-- Claim C7: the length of the returned sequence never exceeds the effective
top-K of the call (6 for single-token queries, 3 for multi-token queries; the
precise-mode fallback's width 3 coincides with the precise top-K). -/
theorem claim7_length_bound (collab : Collab) (q : String) (k : Nat) (t : ℚ) :
    (retrieve collab q k t).length ≤ effectiveTopK q := by
  cases hse : strippedEmpty q with
  | true => rw [retrieve_eq_nil_of_ws hse]; simp
  | false =>
    rw [retrieve_eq_body hse]
    exact length_retrieveBody _ _ _ _ (three_le_effectiveTopK q)

/-- Claim C8: every sort used by `retrieve` is stable with the original index
order as tie-break: restricted to any one similarity score, the returned
sequence is a subsequence of the candidate list in its original order. -/
theorem claim8_stable_tie_order (collab : Collab) (q : String) (k : Nat)
    (t : ℚ) (s : ℚ) :
    List.Sublist ((retrieve collab q k t).filter (fun c => c.score = s))
      ((allCandidates collab q).filter (fun c => c.score = s)) := by
  cases hse : strippedEmpty q with
  | true => rw [retrieve_eq_nil_of_ws hse]; exact List.nil_sublist _
  | false =>
    rw [retrieve_eq_body hse]
    exact retrieveBody_filter_score_sublist _ _ _ _ _


/-- Claim C9: the output of `retrieveT` does not depend on the caller-supplied
`top_k` in any branch; given identical collaborator responses, any two `top_k`
values produce identical results (the effective top-K is fixed by query shape). -/
theorem claim9_topk_independent (collab : Collab) (q : String) (t : ℚ)
    (k₁ k₂ : Nat) :
    retrieveT collab q k₁ t = retrieveT collab q k₂ t := rfl

/-- Claim C10: whenever the effective threshold is at least −0.55, every
candidate passing the threshold also clears the global floor, so
`strong_enough` equals `passed_threshold`; a single-token query with a
non-empty `passed_threshold` then returns exactly `passed_threshold` sorted
descending and truncated to 6, never reaching the fall-through. -/
theorem claim10_threshold_above_floor (collab : Collab) (q : String)
    (k : Nat) (t : ℚ)
    (hw : (pySplit q).length = 1)
    (ht : MIN_ACCEPTABLE_SCORE ≤ effectiveThreshold q t)
    (hp : passedThreshold collab q t ≠ []) :
    (passedThreshold collab q t).filter (fun c => MIN_ACCEPTABLE_SCORE ≤ c.score)
        = passedThreshold collab q t ∧
      retrieve collab q k t = (sortDesc (passedThreshold collab q t)).take 6 := by
  have hq : strippedEmpty q = false := by
    refine strippedEmpty_eq_false fun hnil => ?_
    rw [hnil] at hw
    simp at hw
  have hsw : isSingleWord q = true := isSingleWord_iff.mpr hw
  have hk : effectiveTopK q = 6 := by rw [effectiveTopK, if_pos hsw]
  have hfix : (passedThreshold collab q t).filter
      (fun c => MIN_ACCEPTABLE_SCORE ≤ c.score) = passedThreshold collab q t := by
    rw [List.filter_eq_self]
    intro a ha
    simp only [passedThreshold, List.mem_filter, decide_eq_true_eq] at ha
    simp only [decide_eq_true_eq]
    exact ht.trans ha.2
  refine ⟨hfix, ?_⟩
  have hp' : (allCandidates collab q).filter
      (fun c => effectiveThreshold q t ≤ c.score) ≠ [] := hp
  have hfix' : ((allCandidates collab q).filter
      (fun c => effectiveThreshold q t ≤ c.score)).filter
        (fun c => MIN_ACCEPTABLE_SCORE ≤ c.score) =
      (allCandidates collab q).filter
        (fun c => effectiveThreshold q t ≤ c.score) := hfix
  rw [retrieve_eq_body hq]
  simp only [retrieveBody, if_neg hp', hsw, if_true, hfix', if_neg hp', hk]
  rfl

/-- Claim C5 (amended): for a single-token query where `passed_threshold` is
non-empty but every passing candidate is below −0.55, the effective threshold
itself must lie below −0.55, so every candidate at or above the floor would
already have passed the threshold; the fall-through therefore reaches the
fallback with an empty floor-filtered pool and `retrieve` returns the empty
sequence — never a non-empty fallback result. -/
theorem claim5_fallthrough_returns_nil (collab : Collab) (q : String)
    (k : Nat) (t : ℚ)
    (hw : (pySplit q).length = 1)
    (hp : passedThreshold collab q t ≠ [])
    (hf : ∀ c ∈ passedThreshold collab q t, c.score < MIN_ACCEPTABLE_SCORE) :
    retrieve collab q k t = [] := by
  have hq : strippedEmpty q = false := by
    refine strippedEmpty_eq_false fun hnil => ?_
    rw [hnil] at hw
    simp at hw
  have hsw : isSingleWord q = true := isSingleWord_iff.mpr hw
  obtain ⟨c₀, hc₀⟩ := List.exists_mem_of_ne_nil _ hp
  have hc₀m := hc₀
  simp only [passedThreshold, List.mem_filter, decide_eq_true_eq] at hc₀m
  have hthr : effectiveThreshold q t < MIN_ACCEPTABLE_SCORE :=
    lt_of_le_of_lt hc₀m.2 (hf c₀ hc₀)
  have hnone : ∀ c ∈ allCandidates collab q, ¬ MIN_ACCEPTABLE_SCORE ≤ c.score := by
    intro c hc hfloor
    have hpass : c ∈ passedThreshold collab q t := by
      simp only [passedThreshold, List.mem_filter, decide_eq_true_eq]
      exact ⟨hc, hthr.le.trans hfloor⟩
    exact absurd hfloor (not_le.mpr (hf c hpass))
  have hstrongall : (sortDesc (allCandidates collab q)).filter
      (fun c => MIN_ACCEPTABLE_SCORE ≤ c.score) = [] := by
    rw [List.filter_eq_nil_iff]
    intro a ha
    simp only [decide_eq_true_eq]
    exact hnone a (mem_sortDesc.mp ha)
  have hstrong : ((allCandidates collab q).filter
      (fun c => effectiveThreshold q t ≤ c.score)).filter
        (fun c => MIN_ACCEPTABLE_SCORE ≤ c.score) = [] := by
    rw [List.filter_eq_nil_iff]
    intro a ha
    simp only [decide_eq_true_eq]
    exact hnone a (List.mem_of_mem_filter ha)
  have hp' : (allCandidates collab q).filter
      (fun c => effectiveThreshold q t ≤ c.score) ≠ [] := hp
  rw [retrieve_eq_body hq]
  simp only [retrieveBody]
  rw [if_neg hp']
  simp only [hsw, if_true]
  rw [if_pos hstrong]
  simp only [fallbackSelect]
  rw [if_pos hstrongall]

/-! ### Concrete collaborator fixtures for witnesses -/

/-- Records with similarities 0.9, 0.3, −0.7 (spec Scenario A flavour). -/
def scenarioARecords : List IndexRecord :=
  [⟨"", ⟨none, none, none⟩, 1/10⟩, ⟨"", ⟨none, none, none⟩, 7/10⟩,
   ⟨"", ⟨none, none, none⟩, 17/10⟩]

def scenarioACollab : Collab := ⟨fun _ => [], fun _ _ => scenarioARecords⟩

/-- Records with similarities −0.3, −0.4, −0.7 (spec Scenario B). -/
def scenarioBRecords : List IndexRecord :=
  [⟨"", ⟨none, none, none⟩, 13/10⟩, ⟨"", ⟨none, none, none⟩, 7/5⟩,
   ⟨"", ⟨none, none, none⟩, 17/10⟩]

def scenarioBCollab : Collab := ⟨fun _ => [], fun _ _ => scenarioBRecords⟩

/-- Records with similarities −0.7 and −0.6: with threshold −1 these pass an
effective threshold of −0.8 (single-token) or −1 (multi-token) while staying
below the −0.55 floor. -/
def fallthroughRecords : List IndexRecord :=
  [⟨"", ⟨none, none, none⟩, 17/10⟩, ⟨"", ⟨none, none, none⟩, 8/5⟩]

def fallthroughCollab : Collab := ⟨fun _ => [], fun _ _ => fallthroughRecords⟩

/-- Records with similarities −0.56 and −0.6: with supplied threshold −0.7 a
single-token query has effective threshold −0.56, so exactly the −0.56
candidate passes while staying below the −0.55 floor. -/
def borderRecords : List IndexRecord :=
  [⟨"", ⟨none, none, none⟩, 39/25⟩, ⟨"", ⟨none, none, none⟩, 8/5⟩]

def borderCollab : Collab := ⟨fun _ => [], fun _ _ => borderRecords⟩

/-! ### Witnesses and counterexample evaluations -/

/-- Claim C5 counterexample: a concrete instance of the only realizable form
of the claim's scenario — single-token query, non-empty `passed_threshold`,
every passing candidate below −0.55 — on which `retrieve` returns the empty
list, refuting the claimed non-empty fallback result.  (The claim's further
hypothesis of candidates between −0.55 and the threshold is unsatisfiable:
any candidate at or above −0.55 would itself pass the sub-floor threshold.) -/
theorem claim5_fallthrough_counterexample :
    (pySplit "hi").length = 1 ∧
    passedThreshold fallthroughCollab "hi" (-1) ≠ [] ∧
    (∀ c ∈ passedThreshold fallthroughCollab "hi" (-1),
      c.score < MIN_ACCEPTABLE_SCORE) ∧
    retrieve fallthroughCollab "hi" 4 (-1) = [] := by
  have hsw : isSingleWord "hi" = true := by decide
  have hse : strippedEmpty "hi" = false := by decide
  have hpt : passedThreshold fallthroughCollab "hi" (-1) =
      [⟨"", "", "", "", -(7/10)⟩, ⟨"", "", "", "", -(3/5)⟩] := by
    norm_num [passedThreshold, allCandidates, effectiveThreshold, hsw,
      fallthroughCollab, fallthroughRecords, toChunk, List.filter_cons,
      List.filter_nil, decide_eq_true_eq]
  refine ⟨by decide, ?_, ?_, ?_⟩
  · rw [hpt]
    simp
  · rw [hpt]
    intro c hc
    rcases List.mem_cons.mp hc with rfl | hc
    · norm_num [MIN_ACCEPTABLE_SCORE]
    · rcases List.mem_cons.mp hc with rfl | hc
      · norm_num [MIN_ACCEPTABLE_SCORE]
      · exact absurd hc (List.not_mem_nil c)
  · norm_num [retrieve, retrieveT, retrieveBody, fallbackSelect, hse, hsw,
      effectiveTopK, effectiveThreshold, allCandidates, toChunk,
      fallthroughCollab, fallthroughRecords, sortDesc, insertDesc,
      MIN_ACCEPTABLE_SCORE, List.filter_cons, List.filter_nil,
      decide_eq_true_eq]

/-- Claim C5 witness for the amended theorem: with threshold −0.7 and a
−0.56-similarity candidate, the single-token fall-through occurs and the
result is empty. -/
theorem claim5_fallthrough_returns_nil_witness :
    (pySplit "hi").length = 1 ∧
    passedThreshold borderCollab "hi" (-(7/10)) ≠ [] ∧
    (∀ c ∈ passedThreshold borderCollab "hi" (-(7/10)),
      c.score < MIN_ACCEPTABLE_SCORE) ∧
    retrieve borderCollab "hi" 4 (-(7/10)) = [] := by
  have hsw : isSingleWord "hi" = true := by decide
  have hpt : passedThreshold borderCollab "hi" (-(7/10)) =
      [⟨"", "", "", "", -(14/25)⟩] := by
    norm_num [passedThreshold, allCandidates, effectiveThreshold, hsw,
      borderCollab, borderRecords, toChunk, List.filter_cons,
      List.filter_nil, decide_eq_true_eq]
  have hp : passedThreshold borderCollab "hi" (-(7/10)) ≠ [] := by
    rw [hpt]
    simp
  have hf : ∀ c ∈ passedThreshold borderCollab "hi" (-(7/10)),
      c.score < MIN_ACCEPTABLE_SCORE := by
    rw [hpt]
    intro c hc
    rcases List.mem_cons.mp hc with rfl | hc
    · norm_num [MIN_ACCEPTABLE_SCORE]
    · exact absurd hc (List.not_mem_nil c)
  exact ⟨by decide, hp, hf,
    claim5_fallthrough_returns_nil borderCollab "hi" 4 (-(7/10))
      (by decide) hp hf⟩

/-- Claim C2 witness: `"hi"` is a single-token query and gets top-K 6 with a
scaled threshold; `"a b"` is multi-token and gets top-K 3 with the threshold
unchanged. -/
theorem claim2_effective_parameters_witness :
    ((pySplit "hi").length = 1 ∧ effectiveTopK "hi" = 6 ∧
      effectiveThreshold "hi" (1/4) = (1/4) * (8/10)) ∧
    (2 ≤ (pySplit "a b").length ∧ effectiveTopK "a b" = 3 ∧
      effectiveThreshold "a b" (1/4) = 1/4) := by
  have h1 := (claim2_effective_parameters "hi" (1/4)).1 (by decide)
  have h2 := (claim2_effective_parameters "a b" (1/4)).2 (by decide)
  exact ⟨⟨by decide, h1.1, h1.2⟩, ⟨by decide, h2.1, h2.2⟩⟩

/-- Claim C3 witness (spec Scenario B): all similarities below the threshold,
two above the floor; the multi-token fallback returns those two sorted
descending. -/
theorem claim3_fallback_on_empty_pass_witness :
    strippedEmpty "a b" = false ∧
    passedThreshold scenarioBCollab "a b" (1/4) = [] ∧
    retrieve scenarioBCollab "a b" 4 (1/4) =
      [⟨"", "", "", "", -(3/10)⟩, ⟨"", "", "", "", -(2/5)⟩] := by
  have h0 : strippedEmpty "a b" = false := by decide
  have hw : isSingleWord "a b" = false := by decide
  have h1 : passedThreshold scenarioBCollab "a b" (1/4) = [] := by
    norm_num [passedThreshold, allCandidates, effectiveThreshold, hw,
      scenarioBCollab, scenarioBRecords, toChunk, List.filter_cons,
      List.filter_nil, decide_eq_true_eq]
  refine ⟨h0, h1,
    (claim3_fallback_on_empty_pass scenarioBCollab "a b" 4 (1/4) h0 h1).trans ?_⟩
  norm_num [allCandidates, scenarioBCollab, scenarioBRecords, toChunk, hw,
    sortDesc, insertDesc, MIN_ACCEPTABLE_SCORE, effectiveTopK,
    List.filter_cons, List.filter_nil, decide_eq_true_eq]

/-- Claim C4 witness: multi-token query, threshold −1, candidates at −0.7 and
−0.6 pass the threshold but are below the floor; the result is empty. -/
theorem claim4_precise_floor_empty_witness :
    2 ≤ (pySplit "a b").length ∧
    passedThreshold fallthroughCollab "a b" (-1) ≠ [] ∧
    (∀ c ∈ passedThreshold fallthroughCollab "a b" (-1),
      c.score < MIN_ACCEPTABLE_SCORE) ∧
    retrieve fallthroughCollab "a b" 4 (-1) = [] := by
  have hw : isSingleWord "a b" = false := by decide
  have hpt : passedThreshold fallthroughCollab "a b" (-1) =
      [⟨"", "", "", "", -(7/10)⟩, ⟨"", "", "", "", -(3/5)⟩] := by
    norm_num [passedThreshold, allCandidates, effectiveThreshold, hw,
      fallthroughCollab, fallthroughRecords, toChunk, List.filter_cons,
      List.filter_nil, decide_eq_true_eq]
  have hp : passedThreshold fallthroughCollab "a b" (-1) ≠ [] := by
    rw [hpt]
    simp
  have hf : ∀ c ∈ passedThreshold fallthroughCollab "a b" (-1),
      c.score < MIN_ACCEPTABLE_SCORE := by
    rw [hpt]
    intro c hc
    rcases List.mem_cons.mp hc with rfl | hc
    · norm_num [MIN_ACCEPTABLE_SCORE]
    · rcases List.mem_cons.mp hc with rfl | hc
      · norm_num [MIN_ACCEPTABLE_SCORE]
      · exact absurd hc (List.not_mem_nil c)
  exact ⟨by decide, hp, hf,
    claim4_precise_floor_empty fallthroughCollab "a b" 4 (-1) (by decide) hp hf⟩

/-- Claim C6 witness: a whitespace-only query short-circuits with zero
collaborator calls. -/
theorem claim6_empty_query_short_circuit_witness :
    strippedEmpty " " = true ∧
    retrieveT scenarioACollab " " 4 (1/4) = ([], 0) :=
  ⟨by decide, claim6_empty_query_short_circuit scenarioACollab " " 4 (1/4)
    (by decide)⟩

/-- Claim C10 witness: under the default threshold 0.25 a single-token query
has effective threshold 0.2 ≥ −0.55; with passing candidates at 0.9 and 0.3,
`strong_enough` equals `passed_threshold` and the result is its descending
sort truncated to 6. -/
theorem claim10_threshold_above_floor_witness :
    (pySplit "hi").length = 1 ∧
    MIN_ACCEPTABLE_SCORE ≤ effectiveThreshold "hi" (1/4) ∧
    passedThreshold scenarioACollab "hi" (1/4) ≠ [] ∧
    ((passedThreshold scenarioACollab "hi" (1/4)).filter
        (fun c => MIN_ACCEPTABLE_SCORE ≤ c.score)
      = passedThreshold scenarioACollab "hi" (1/4) ∧
     retrieve scenarioACollab "hi" 4 (1/4) =
      (sortDesc (passedThreshold scenarioACollab "hi" (1/4))).take 6) := by
  have hsw : isSingleWord "hi" = true := by decide
  have ht : MIN_ACCEPTABLE_SCORE ≤ effectiveThreshold "hi" (1/4) := by
    norm_num [MIN_ACCEPTABLE_SCORE, effectiveThreshold, hsw]
  have hpt : passedThreshold scenarioACollab "hi" (1/4) =
      [⟨"", "", "", "", 9/10⟩, ⟨"", "", "", "", 3/10⟩] := by
    norm_num [passedThreshold, allCandidates, effectiveThreshold, hsw,
      scenarioACollab, scenarioARecords, toChunk, List.filter_cons,
      List.filter_nil, decide_eq_true_eq]
  have hp : passedThreshold scenarioACollab "hi" (1/4) ≠ [] := by
    rw [hpt]
    simp
  exact ⟨by decide, ht, hp,
    claim10_threshold_above_floor scenarioACollab "hi" 4 (1/4)
      (by decide) ht hp⟩

end NewsRAG
